import Mathlib

/-!
Shallow embedding of the BIMCS drum-boiler backend
(`src/backend/boiler_physics.py` and `src/backend/main.py`).

Python floats are modelled as exact rationals (`ℚ`); wall-clock time is
modelled by passing the elapsed time `dt` of a tick explicitly (in the
source, `dt = time.time() - self.last_update_time`).  Python's
`round(x, 2)` (round-half-to-even at two decimal places) is modelled
exactly on `ℚ`.  Fallible calls into the externally loaded model/scaler
are modelled with `Except`.
-/

namespace DrumBoilerPhysics

/-- Physical constants of `DrumBoilerPhysics` (class attributes in the source). -/
def FEEDWATER_INFLOW : ℚ := 15

def STEAM_CONVERSION_FACTOR : ℚ := 1/2

def PRESSURE_BUILD_RATE : ℚ := 1

def PRESSURE_DECAY_RATE : ℚ := 1/10

def MAX_PRESSURE : ℚ := 25

def MIN_WATER_LEVEL : ℚ := 10

def MAX_WATER_LEVEL : ℚ := 90

def CRITICAL_PRESSURE_THRESHOLD : ℚ := 20

def UPDATE_INTERVAL : ℚ := 1/10

/-- The status strings the engine stores in `self.status`. -/
inductive BoilerStatus where
  | NORMAL
  | WARNING
  | LOW_LEVEL_TRIP
  | HIGH_LEVEL_TRIP
  | CRITICAL_PRESSURE
deriving DecidableEq

/-- Alarm messages appended to `self.alarm_messages`; the constructor
carries the numeric value interpolated into the f-string. -/
inductive Alarm where
  | criticalPressure (pressure : ℚ)
  | lowLevelTrip (water_level : ℚ)
  | highLevelTrip (water_level : ℚ)
  | warningLowLevel (water_level : ℚ)
  | warningHighPressure (pressure : ℚ)
deriving DecidableEq

/-- Python's `round(x, 2)`: scale by 100, round half to even, scale back. -/
def round2 (q : ℚ) : ℚ :=
  let scaled := q * 100
  let n : ℤ := ⌊scaled⌋
  let frac := scaled - (n : ℚ)
  let r : ℤ :=
    if frac < 1/2 then n
    else if 1/2 < frac then n + 1
    else if n % 2 = 0 then n else n + 1
  (r : ℚ) / 100

/-- `max(lo, min(hi, x))` as written in the source. -/
def clamp (lo hi x : ℚ) : ℚ := max lo (min hi x)

/-- STEP 5 of `update`: the first-match cascade assigning `self.status`
from the post-update water level and pressure. -/
def classify (water_level pressure : ℚ) : BoilerStatus :=
  if pressure > CRITICAL_PRESSURE_THRESHOLD then .CRITICAL_PRESSURE
  else if water_level < MIN_WATER_LEVEL then .LOW_LEVEL_TRIP
  else if water_level > MAX_WATER_LEVEL then .HIGH_LEVEL_TRIP
  else if water_level < 20 ∨ pressure > 18 then .WARNING
  else .NORMAL

/-- STEP 5 of `update`: the alarm messages appended in the same cascade
(both WARNING sub-conditions may contribute a message). -/
def computeAlarms (water_level pressure : ℚ) : List Alarm :=
  if pressure > CRITICAL_PRESSURE_THRESHOLD then [.criticalPressure pressure]
  else if water_level < MIN_WATER_LEVEL then [.lowLevelTrip water_level]
  else if water_level > MAX_WATER_LEVEL then [.highLevelTrip water_level]
  else if water_level < 20 ∨ pressure > 18 then
    (if water_level < 20 then [.warningLowLevel water_level] else []) ++
    (if pressure > 18 then [.warningHighPressure pressure] else [])
  else []

/-- The `state` dict built at STEP 6 of `update` and appended to
`self.history` (values rounded to two decimals, as in the source). -/
structure StateSnapshot where
  water_level : ℚ
  pressure : ℚ
  temperature : ℚ
  fire_intensity : ℚ
  steam_generation : ℚ
  status : BoilerStatus
  alarms : List Alarm
deriving DecidableEq

/-- Mutable state of a `DrumBoilerPhysics` instance (`last_update_time` is
modelled by passing `dt` to `update` explicitly). -/
structure BoilerState where
  water_level : ℚ
  pressure : ℚ
  temperature : ℚ
  fire_intensity : ℚ
  status : BoilerStatus
  alarm_messages : List Alarm
  history : List StateSnapshot
deriving DecidableEq

/-- `DrumBoilerPhysics.update(fire_intensity)`, with the wall-clock delta
`dt` passed explicitly.  Returns the new state together with the returned
snapshot dict. -/
def update (s : BoilerState) (fire_intensity dt : ℚ) : BoilerState × StateSnapshot :=
  let fi := clamp 0 100 fire_intensity
  let steam_generation_rate := fi * STEAM_CONVERSION_FACTOR
  let wl := clamp 0 100
    (s.water_level + (FEEDWATER_INFLOW - steam_generation_rate) * dt / UPDATE_INTERVAL)
  let p := clamp 0 MAX_PRESSURE
    (s.pressure + steam_generation_rate * PRESSURE_BUILD_RATE * dt / UPDATE_INTERVAL
      - s.pressure * PRESSURE_DECAY_RATE * dt / UPDATE_INTERVAL)
  let base_temp := 540 + (p / MAX_PRESSURE) * 60
  let temp := if wl < 30 then base_temp + (30 - wl) * 2 else base_temp
  let snap : StateSnapshot :=
    { water_level := round2 wl
      pressure := round2 p
      temperature := round2 temp
      fire_intensity := round2 fi
      steam_generation := round2 steam_generation_rate
      status := classify wl p
      alarms := computeAlarms wl p }
  let h1 := s.history ++ [snap]
  let history := if h1.length > 1000 then h1.drop 1 else h1
  ({ water_level := wl
     pressure := p
     temperature := temp
     fire_intensity := fi
     status := classify wl p
     alarm_messages := computeAlarms wl p
     history := history }, snap)

/-- `DrumBoilerPhysics.reset(water_level, pressure, temperature)`. -/
def reset (water_level pressure temperature : ℚ) : BoilerState :=
  { water_level := water_level
    pressure := pressure
    temperature := temperature
    fire_intensity := 0
    status := .NORMAL
    alarm_messages := []
    history := [] }

/-- The dict returned by `DrumBoilerPhysics.get_state()` (no history key,
no steam_generation key, values rounded to two decimals). -/
structure GetStateResult where
  water_level : ℚ
  pressure : ℚ
  temperature : ℚ
  fire_intensity : ℚ
  status : BoilerStatus
  alarms : List Alarm
deriving DecidableEq

/-- `DrumBoilerPhysics.get_state()`. -/
def get_state (s : BoilerState) : GetStateResult :=
  { water_level := round2 s.water_level
    pressure := round2 s.pressure
    temperature := round2 s.temperature
    fire_intensity := round2 s.fire_intensity
    status := s.status
    alarms := s.alarm_messages }

/-- A finite sequence of `update` calls: each element of `inputs` is a
pair `(fire_intensity, dt)`. -/
def ticks (s : BoilerState) : List (ℚ × ℚ) → BoilerState
  | [] => s
  | (f, dt) :: rest => ticks (update s f dt).1 rest

end DrumBoilerPhysics

namespace BoilerBackend

open DrumBoilerPhysics

/-- `SEQUENCE_LENGTH` in `main.py`. -/
def SEQUENCE_LENGTH : ℕ := 60

/-- `FORECAST_STEPS` in `main.py`. -/
def FORECAST_STEPS : ℕ := 30

/-- One feature row `[valve, pressure, flow, temperature]`. -/
abbrev Row : Type := Fin 4 → ℚ

/-- Row constructor in feature order `[valve, pressure, flow, temperature]`. -/
def mkRow (valve pressure flow temperature : ℚ) : Row :=
  fun j => if j = 0 then valve else if j = 1 then pressure
           else if j = 2 then flow else temperature

/-- The fitted `StandardScaler`: per-feature affine normalizer with a mean
and a scale for each of the 4 feature columns. -/
structure AffineScaler where
  mean : Fin 4 → ℚ
  scale : Fin 4 → ℚ

/-- `scaler.transform` on one row: per-column `(x - mean) / scale`. -/
def AffineScaler.transformRow (sc : AffineScaler) (row : Row) : Row :=
  fun j => (row j - sc.mean j) / sc.scale j

/-- `scaler.inverse_transform` on one row: per-column `x * scale + mean`. -/
def AffineScaler.inverseRow (sc : AffineScaler) (row : Row) : Row :=
  fun j => row j * sc.scale j + sc.mean j

/-- The loaded LSTM model, consumed as an opaque window-to-scalar service:
`model.predict(window)[0, 0]`.  The call into the external dependency may
fail, which is modelled with `Except`. -/
def Predictor : Type := List Row → Except String ℚ

/-- `create_input_sequence(valve, pressure, flow, current_temp)`: a stable
60-row history at the operating point, normalized by the scaler. -/
def create_input_sequence (sc : AffineScaler) (valve pressure flow current_temp : ℚ) :
    List Row :=
  List.replicate SEQUENCE_LENGTH
    (sc.transformRow (mkRow valve pressure flow current_temp))

/-- The loop body of `iterative_forecast`: for each step, predict one
normalized scalar, then slide the window (`np.roll` by -1 along the time
axis followed by overwriting the last row drops row 0 and appends the new
row built from the held-constant normalized controls with the prediction
in the target slot). -/
def forecastLoop (P : Predictor) (sc : AffineScaler) (valve pressure flow : ℚ) :
    ℕ → List Row → Except String (List ℚ)
  | 0, _ => Except.ok []
  | n + 1, current_sequence =>
    match P current_sequence with
    | Except.error e => Except.error e
    | Except.ok pred_norm =>
      let next_step_norm : Row :=
        fun j => if j = 3 then pred_norm
                 else sc.transformRow (mkRow valve pressure flow 0) j
      match forecastLoop P sc valve pressure flow n
          (current_sequence.drop 1 ++ [next_step_norm]) with
      | Except.error e => Except.error e
      | Except.ok rest => Except.ok (pred_norm :: rest)

/-- `iterative_forecast(initial_sequence, valve, pressure, flow, steps)`:
run the autoregressive loop, then denormalize the predictions by placing
each one in the target column of an otherwise-zero dummy row, applying
`inverse_transform` and reading back column 3. -/
def iterative_forecast (P : Predictor) (sc : AffineScaler) (initial_sequence : List Row)
    (valve pressure flow : ℚ) (steps : ℕ) : Except String (List ℚ) :=
  match forecastLoop P sc valve pressure flow steps initial_sequence with
  | Except.error e => Except.error e
  | Except.ok predictions =>
    Except.ok (predictions.map
      (fun p => sc.inverseRow (fun j => if j = 3 then p else 0) 3))

/-- `DANGER_TEMP_THRESHOLD` in `simulate_boiler`. -/
def DANGER_TEMP_THRESHOLD : ℚ := 560

/-- `SAFE_FIRE_LIMIT` in `simulate_boiler`. -/
def SAFE_FIRE_LIMIT : ℚ := 60

/-- The `intervention_reason` f-string, modelled by the values it
interpolates. -/
inductive InterventionReason where
  | predictedTempExceedsLimit (predicted_temp_final danger_threshold : ℚ)
deriving DecidableEq

/-- The supervisor's decision (STEP 4 of `simulate_boiler`). -/
structure SupervisorDecision where
  requested_input : ℚ
  effective_input : ℚ
  intervened : Bool
  reason : Option InterventionReason
deriving DecidableEq

/-- STEP 4 of `simulate_boiler`: `final_fire_input` starts as the user's
input; only when AI mode is enabled and the final predicted temperature
(`future_temperatures[-1]`) strictly exceeds the danger threshold is it
clamped to `min(user_fire_input, SAFE_FIRE_LIMIT)`. -/
def superviseDecide (user_fire_input : ℚ) (ai_mode_enabled : Bool)
    (future_temperatures : List ℚ) : SupervisorDecision :=
  let predicted_temp_final := future_temperatures.getLastD 0
  if ai_mode_enabled then
    if predicted_temp_final > DANGER_TEMP_THRESHOLD then
      { requested_input := user_fire_input
        effective_input := min user_fire_input SAFE_FIRE_LIMIT
        intervened := true
        reason := some (.predictedTempExceedsLimit predicted_temp_final
          DANGER_TEMP_THRESHOLD) }
    else
      { requested_input := user_fire_input
        effective_input := user_fire_input
        intervened := false
        reason := none }
  else
    { requested_input := user_fire_input
      effective_input := user_fire_input
      intervened := false
      reason := none }

/-- `visual_state` of the `/simulate` response. -/
structure VisualState where
  water_level : ℚ
  pressure : ℚ
  temperature : ℚ
  fire_intensity : ℚ
  steam_generation : ℚ
deriving DecidableEq

/-- `ai_data` of the `/simulate` response. -/
structure AiData where
  predicted_temp_avg : ℚ
  predicted_temp_final : ℚ
  predicted_temps_series : List ℚ
  original_user_input : ℚ
  actual_system_input : ℚ
  intervention_active : Bool
  intervention_reason : Option InterventionReason
  ai_mode_enabled : Bool
deriving DecidableEq

/-- The `/simulate` response body. -/
structure SimulationResponse where
  visual_state : VisualState
  ai_data : AiData
  status : BoilerStatus
deriving DecidableEq

/-- HTTP errors raised by `simulate_boiler`: the 503 guard when model or
scaler is not loaded, and the 500 wrapper around any exception of the
simulation body (e.g. a failing `model.predict`). -/
inductive SimError where
  | dependencyUnavailable
  | simulationFailed (msg : String)
deriving DecidableEq

/-- `simulate_boiler(request)`: the whole `/simulate` step over the global
`physics_engine` state `s`.  Returns the (possibly unchanged) physics
state together with the HTTP outcome; an error leaves the state exactly
as it was, because the physics update (STEP 5) runs only after the
forecast has succeeded. -/
def simulate_boiler (model : Option Predictor) (scaler : Option AffineScaler)
    (s : BoilerState) (user_fire_intensity : ℚ) (ai_mode_enabled : Bool) (dt : ℚ) :
    BoilerState × Except SimError SimulationResponse :=
  match model, scaler with
  | none, _ => (s, Except.error .dependencyUnavailable)
  | some _, none => (s, Except.error .dependencyUnavailable)
  | some P, some sc =>
    let mapped_valve : ℚ := 50
    let mapped_pressure := s.pressure
    let mapped_flow := user_fire_intensity * 2
    let input_sequence :=
      create_input_sequence sc mapped_valve mapped_pressure mapped_flow s.temperature
    match iterative_forecast P sc input_sequence mapped_valve mapped_pressure
        mapped_flow FORECAST_STEPS with
    | Except.error e => (s, Except.error (.simulationFailed e))
    | Except.ok future_temperatures =>
      let predicted_temp_final := future_temperatures.getLastD 0
      let predicted_temp_avg :=
        future_temperatures.sum / (future_temperatures.length : ℚ)
      let dec := superviseDecide user_fire_intensity ai_mode_enabled future_temperatures
      let stepped := update s dec.effective_input dt
      (stepped.1, Except.ok
        { visual_state :=
            { water_level := stepped.2.water_level
              pressure := stepped.2.pressure
              temperature := stepped.2.temperature
              fire_intensity := dec.effective_input
              steam_generation := stepped.2.steam_generation }
          ai_data :=
            { predicted_temp_avg := round2 predicted_temp_avg
              predicted_temp_final := round2 predicted_temp_final
              predicted_temps_series := future_temperatures.map round2
              original_user_input := user_fire_intensity
              actual_system_input := dec.effective_input
              intervention_active := dec.intervened
              intervention_reason := dec.reason
              ai_mode_enabled := ai_mode_enabled }
          status := stepped.2.status })

/-- The deterministic stub Predictor used by the forecast-engine test
property: it returns the last row's normalized target unchanged. -/
def identityStubPredictor : Predictor :=
  fun window => Except.ok ((window.getLastD default) 3)

end BoilerBackend

namespace DrumBoilerPhysics

/-- The documented bounds on the two clamped state variables. -/
def StateBounds (s : BoilerState) : Prop :=
  0 ≤ s.water_level ∧ s.water_level ≤ 100 ∧ 0 ≤ s.pressure ∧ s.pressure ≤ MAX_PRESSURE

lemma le_clamp (lo hi x : ℚ) : lo ≤ clamp lo hi x := le_max_left lo _

lemma clamp_le {lo hi : ℚ} (x : ℚ) (h : lo ≤ hi) : clamp lo hi x ≤ hi :=
  max_le h (min_le_left _ _)

lemma update_water_level_eq (s : BoilerState) (f dt : ℚ) :
    (update s f dt).1.water_level
      = clamp 0 100 (s.water_level
          + (FEEDWATER_INFLOW - clamp 0 100 f * STEAM_CONVERSION_FACTOR) * dt
            / UPDATE_INTERVAL) := rfl

lemma update_pressure_eq (s : BoilerState) (f dt : ℚ) :
    (update s f dt).1.pressure
      = clamp 0 MAX_PRESSURE (s.pressure
          + clamp 0 100 f * STEAM_CONVERSION_FACTOR * PRESSURE_BUILD_RATE * dt
            / UPDATE_INTERVAL
          - s.pressure * PRESSURE_DECAY_RATE * dt / UPDATE_INTERVAL) := rfl

lemma update_stateBounds (s : BoilerState) (f dt : ℚ) :
    StateBounds (update s f dt).1 := by
  refine ⟨?_, ?_, ?_, ?_⟩
  · rw [update_water_level_eq]; exact le_clamp _ _ _
  · rw [update_water_level_eq]; exact clamp_le _ (by norm_num)
  · rw [update_pressure_eq]; exact le_clamp _ _ _
  · rw [update_pressure_eq]; exact clamp_le _ (by norm_num [MAX_PRESSURE])

lemma ticks_stateBounds (inputs : List (ℚ × ℚ)) :
    ∀ s : BoilerState, StateBounds s → StateBounds (ticks s inputs) := by
  induction inputs with
  | nil => intro s hs; exact hs
  | cons a rest ih =>
    intro s hs
    obtain ⟨f, dt⟩ := a
    exact ih (update s f dt).1 (update_stateBounds s f dt)

/-- C1: starting from any state with `water_level ∈ [0,100]` and
`pressure ∈ [0,25]`, every finite sequence of `update` calls with
arbitrary fire inputs and elapsed times keeps `water_level` in `[0,100]`
and `pressure` in `[0, MAX_PRESSURE]` after each tick (every prefix of
the call sequence ends within bounds). -/
theorem tick_bounds_invariant (s : BoilerState) (hs : StateBounds s)
    (inputs : List (ℚ × ℚ)) (k : ℕ) :
    StateBounds (ticks s (inputs.take k)) :=
  ticks_stateBounds (inputs.take k) s hs

/-- Witness for C1 at the default initial state and one tick of
`fire = 100`, `dt = 0.1`. -/
theorem tick_bounds_invariant_witness :
    StateBounds (reset 50 10 540)
    ∧ StateBounds (ticks (reset 50 10 540) ([((100 : ℚ), (1 : ℚ)/10)].take 1)) := by
  have hs : StateBounds (reset 50 10 540) := by
    refine ⟨?_, ?_, ?_, ?_⟩ <;> norm_num [reset, MAX_PRESSURE]
  exact ⟨hs, tick_bounds_invariant (reset 50 10 540) hs [((100 : ℚ), (1 : ℚ)/10)] 1⟩

/-- The status cascade as the spec states it in §4.1 step 5 (first-match,
fixed order), written from the spec's wording for comparison with the
source's `classify`. -/
def specStatusCascade (water_level pressure : ℚ) : BoilerStatus :=
  if pressure > CRITICAL_PRESSURE_THRESHOLD then .CRITICAL_PRESSURE
  else if water_level < MIN_WATER_LEVEL then .LOW_LEVEL_TRIP
  else if water_level > MAX_WATER_LEVEL then .HIGH_LEVEL_TRIP
  else if water_level < 20 ∨ pressure > 18 then .WARNING
  else .NORMAL

/-- C2: the status a tick stores is exactly the first-match cascade
(§4.1 step 5) applied to the post-update water level and pressure; the
cascade agrees with the source's classification everywhere, and at
`water_level = 5`, `pressure = 21` it yields CRITICAL_PRESSURE (the
pressure branch wins over the low-level branch). -/
theorem tick_status_cascade (s : BoilerState) (f dt : ℚ) :
    (update s f dt).1.status
      = specStatusCascade (update s f dt).1.water_level (update s f dt).1.pressure
    ∧ specStatusCascade 5 21 = .CRITICAL_PRESSURE
    ∧ specStatusCascade 5 21 ≠ .LOW_LEVEL_TRIP
    ∧ ∀ wl p : ℚ, specStatusCascade wl p = classify wl p :=
  ⟨rfl, by decide, by decide, fun _ _ => rfl⟩

/-- C7 counterexample: `reset(1/3, 10, 540)` followed by `get_state`
does not return the supplied water level exactly — `get_state` rounds to
two decimals, so it reports `0.33`, not `1/3`. -/
theorem reset_get_state_not_exact :
    (get_state (reset (1/3) 10 540)).water_level ≠ 1/3 := by
  show round2 (1/3) ≠ 1/3
  norm_num [round2]

/-- C7 (amended): `reset` followed by `get_state` returns the supplied
water level, pressure and temperature rounded to two decimal places
(hence exactly the supplied values whenever they are integer multiples
of 1/100), with `fire_intensity = 0`, status NORMAL, empty alarms and
empty history. -/
theorem reset_get_state_rounded (w p t : ℚ) :
    (get_state (reset w p t)).water_level = round2 w
    ∧ (get_state (reset w p t)).pressure = round2 p
    ∧ (get_state (reset w p t)).temperature = round2 t
    ∧ (get_state (reset w p t)).fire_intensity = 0
    ∧ (get_state (reset w p t)).status = .NORMAL
    ∧ (get_state (reset w p t)).alarms = []
    ∧ (reset w p t).history = []
    ∧ ∀ k : ℤ, round2 ((k : ℚ) / 100) = (k : ℚ) / 100 := by
  have hz : round2 0 = 0 := by norm_num [round2]
  refine ⟨rfl, rfl, rfl, hz, rfl, rfl, rfl, ?_⟩
  intro k
  simp only [round2]
  rw [div_mul_cancel₀ _ (by norm_num : (100 : ℚ) ≠ 0)]
  rw [Int.floor_intCast]
  norm_num

/-- C8 counterexample: immediately after `reset(50, 24, 540)` the stored
status is NORMAL while the cascade classification of the stored fields is
CRITICAL_PRESSURE (24 > 20), so the stored status is not always a pure
function of the other fields. -/
theorem reset_status_not_cascade :
    (reset 50 24 540).status
      ≠ classify (reset 50 24 540).water_level (reset 50 24 540).pressure := by decide

/-- C8 (amended): after every tick the stored status equals the cascade
classification of the current water level and pressure, but `reset`
stores status NORMAL unconditionally, so immediately after a reset with
out-of-range values the stored status can disagree with the cascade. -/
theorem status_consistent_after_ticks :
    (∀ (s : BoilerState) (f dt : ℚ),
      (update s f dt).1.status
        = classify (update s f dt).1.water_level (update s f dt).1.pressure)
    ∧ ∀ w p t : ℚ, (reset w p t).status = .NORMAL :=
  ⟨fun _ _ _ => rfl, fun _ _ _ => rfl⟩

lemma update_history_eq (s : BoilerState) (f dt : ℚ) :
    (update s f dt).1.history
      = if (s.history ++ [(update s f dt).2]).length > 1000
        then (s.history ++ [(update s f dt).2]).drop 1
        else s.history ++ [(update s f dt).2] := rfl

lemma update_history_length (s : BoilerState) (f dt : ℚ)
    (h : s.history.length ≤ 1000) :
    (update s f dt).1.history.length = min (s.history.length + 1) 1000 := by
  rw [update_history_eq]
  by_cases hlen : (s.history ++ [(update s f dt).2]).length > 1000
  · rw [if_pos hlen]
    simp only [List.length_drop, List.length_append, List.length_singleton] at *
    omega
  · rw [if_neg hlen]
    simp only [List.length_append, List.length_singleton] at *
    omega

lemma ticks_history_length (inputs : List (ℚ × ℚ)) :
    ∀ s : BoilerState, s.history.length ≤ 1000 →
      (ticks s inputs).history.length = min (s.history.length + inputs.length) 1000 := by
  induction inputs with
  | nil => intro s h; simp [ticks]; omega
  | cons a rest ih =>
    intro s h
    obtain ⟨f, dt⟩ := a
    have h1 := update_history_length s f dt h
    have h2 : (update s f dt).1.history.length ≤ 1000 := by omega
    have h3 := ih (update s f dt).1 h2
    show (ticks (update s f dt).1 rest).history.length = _
    rw [h3, h1]
    simp only [List.length_cons]
    omega

/-- C9: after a reset, `n` ticks leave exactly `min(n, 1000)` history
entries; a tick on a sub-capacity history appends exactly one snapshot,
and a tick at capacity 1000 evicts the oldest entry (the head) and
appends the new snapshot at the end. -/
theorem history_capacity_fifo :
    (∀ (w p t : ℚ) (inputs : List (ℚ × ℚ)),
      (ticks (reset w p t) inputs).history.length = min inputs.length 1000)
    ∧ (∀ (s : BoilerState) (f dt : ℚ), s.history.length < 1000 →
        (update s f dt).1.history = s.history ++ [(update s f dt).2])
    ∧ ∀ (s : BoilerState) (f dt : ℚ), s.history.length = 1000 →
        (update s f dt).1.history = s.history.drop 1 ++ [(update s f dt).2] := by
  refine ⟨?_, ?_, ?_⟩
  · intro w p t inputs
    have h := ticks_history_length inputs (reset w p t) (by simp [reset])
    simpa [reset] using h
  · intro s f dt h
    rw [update_history_eq, if_neg]
    simp only [List.length_append, List.length_singleton]
    omega
  · intro s f dt h
    rw [update_history_eq, if_pos]
    · exact List.drop_append_of_le_length (by omega)
    · simp only [List.length_append, List.length_singleton]
      omega

/-- An arbitrary history entry used to build a state at full capacity. -/
def someSnapshot : StateSnapshot :=
  { water_level := 50, pressure := 10, temperature := 540, fire_intensity := 0,
    steam_generation := 0, status := .NORMAL, alarms := [] }

/-- A boiler state whose history is at full capacity (1000 entries). -/
def fullHistoryState : BoilerState :=
  { water_level := 50, pressure := 10, temperature := 540, fire_intensity := 0,
    status := .NORMAL, alarm_messages := [],
    history := List.replicate 1000 someSnapshot }

/-- Witness for C9: a sub-capacity state (fresh reset) appends one entry,
and a full-capacity state evicts its head. -/
theorem history_capacity_fifo_witness :
    ((reset 50 10 540).history.length < 1000
      ∧ (update (reset 50 10 540) 0 0).1.history
          = (reset 50 10 540).history ++ [(update (reset 50 10 540) 0 0).2])
    ∧ fullHistoryState.history.length = 1000
    ∧ (update fullHistoryState 0 0).1.history
        = fullHistoryState.history.drop 1 ++ [(update fullHistoryState 0 0).2] := by
  have h1 : (reset 50 10 540).history.length < 1000 := by simp [reset]
  have h2 : fullHistoryState.history.length = 1000 := by
    show (List.replicate 1000 someSnapshot).length = 1000
    rw [List.length_replicate]
  exact ⟨⟨h1, history_capacity_fifo.2.1 (reset 50 10 540) 0 0 h1⟩,
         h2, history_capacity_fifo.2.2 fullHistoryState 0 0 h2⟩

end DrumBoilerPhysics

namespace BoilerBackend

open DrumBoilerPhysics

/-- C3: with AI mode enabled, a final forecast value of exactly
`DANGER_TEMP_THRESHOLD` (560) does not trigger an intervention (strict
`>`); a final value above it yields `effective_input =
min(requested, SAFE_FIRE_LIMIT)`, `intervened = true`, and a reason
recording the threshold breach; and the decision depends only on the
final forecast value, not on intermediate steps. -/
theorem supervisor_threshold_decision (user : ℚ) (fs : List ℚ) :
    (fs.getLastD 0 = DANGER_TEMP_THRESHOLD →
      superviseDecide user true fs
        = { requested_input := user, effective_input := user,
            intervened := false, reason := none })
    ∧ (fs.getLastD 0 > DANGER_TEMP_THRESHOLD →
      superviseDecide user true fs
        = { requested_input := user,
            effective_input := min user SAFE_FIRE_LIMIT,
            intervened := true,
            reason := some (.predictedTempExceedsLimit (fs.getLastD 0)
              DANGER_TEMP_THRESHOLD) })
    ∧ ∀ fs2 : List ℚ, fs.getLastD 0 = fs2.getLastD 0 →
        superviseDecide user true fs = superviseDecide user true fs2 := by
  refine ⟨?_, ?_, ?_⟩
  · intro h
    simp only [superviseDecide]
    rw [h]
    norm_num
  · intro h
    simp only [superviseDecide]
    rw [if_pos h]
    norm_num
  · intro fs2 h
    simp only [superviseDecide, h]

/-- Witness for C3: requested input 80; a stub forecast ending at exactly
560 passes through, one ending at 560.1 intervenes and clamps to 60. -/
theorem supervisor_threshold_decision_witness :
    (([(560 : ℚ)].getLastD 0 = DANGER_TEMP_THRESHOLD
      ∧ superviseDecide 80 true [(560 : ℚ)]
          = { requested_input := 80, effective_input := 80,
              intervened := false, reason := none })
    ∧ ([(5601 : ℚ)/10].getLastD 0 > DANGER_TEMP_THRESHOLD
      ∧ superviseDecide 80 true [(5601 : ℚ)/10]
          = { requested_input := 80,
              effective_input := min 80 SAFE_FIRE_LIMIT,
              intervened := true,
              reason := some (.predictedTempExceedsLimit ((5601 : ℚ)/10)
                DANGER_TEMP_THRESHOLD) }))
    ∧ min (80 : ℚ) SAFE_FIRE_LIMIT = 60 := by
  have h1 : [(560 : ℚ)].getLastD 0 = DANGER_TEMP_THRESHOLD := by
    norm_num [DANGER_TEMP_THRESHOLD]
  have h2 : [(5601 : ℚ)/10].getLastD 0 > DANGER_TEMP_THRESHOLD := by
    norm_num [DANGER_TEMP_THRESHOLD]
  refine ⟨⟨⟨h1, ?_⟩, ⟨h2, ?_⟩⟩, by norm_num [SAFE_FIRE_LIMIT]⟩
  · exact (supervisor_threshold_decision 80 [(560 : ℚ)]).1 h1
  · have h3 := (supervisor_threshold_decision 80 [(5601 : ℚ)/10]).2.1 h2
    simpa using h3

/-- C4: with AI mode disabled the supervisor always passes the requested
input through unmodified with no intervention, for any forecast output;
and the effective input applied to the physics engine by a `/simulate`
step equals the requested input, for every predictor whose forecast
succeeds. -/
theorem ai_off_noninterference (user : ℚ) (h0 : 0 ≤ user) (h1 : user ≤ 100) :
    (∀ temps : List ℚ, superviseDecide user false temps
        = { requested_input := user, effective_input := user,
            intervened := false, reason := none })
    ∧ ∀ (P : Predictor) (sc : AffineScaler) (s : BoilerState) (dt : ℚ)
        (temps : List ℚ),
        iterative_forecast P sc
            (create_input_sequence sc 50 s.pressure (user * 2) s.temperature)
            50 s.pressure (user * 2) FORECAST_STEPS = Except.ok temps →
        (simulate_boiler (some P) (some sc) s user false dt).1
            = (update s user dt).1
        ∧ ∃ resp : SimulationResponse,
            (simulate_boiler (some P) (some sc) s user false dt).2
              = Except.ok resp
            ∧ resp.ai_data.actual_system_input = user
            ∧ resp.ai_data.intervention_active = false := by
  constructor
  · intro temps
    simp [superviseDecide]
  · intro P sc s dt temps hf
    simp only [simulate_boiler, hf, superviseDecide, Bool.false_eq_true, if_false]
    exact ⟨trivial, _, rfl, rfl, rfl⟩

/-- A predictor stub that always succeeds with 0 (used as a concrete
successful dependency in witnesses). -/
def constZeroPredictor : Predictor := fun _ => Except.ok 0

/-- The identity normalizer (mean 0, scale 1 on every feature). -/
def idScaler : AffineScaler := ⟨fun _ => 0, fun _ => 1⟩

lemma iterative_forecast_of_loop (P : Predictor) (sc : AffineScaler)
    (init : List Row) (v p f : ℚ) (steps : ℕ) (preds : List ℚ)
    (h : forecastLoop P sc v p f steps init = Except.ok preds) :
    iterative_forecast P sc init v p f steps
      = Except.ok (preds.map
          (fun q => sc.inverseRow (fun j => if j = 3 then q else 0) 3)) := by
  rw [iterative_forecast, h]

lemma forecastLoop_constZero (sc : AffineScaler) (v p f : ℚ) :
    ∀ (n : ℕ) (seq : List Row),
      forecastLoop constZeroPredictor sc v p f n seq
        = Except.ok (List.replicate n 0) := by
  intro n
  induction n with
  | zero => intro seq; rfl
  | succ m ih =>
    intro seq
    rw [forecastLoop]
    simp only [constZeroPredictor]
    rw [ih]
    rw [List.replicate_succ]

lemma iterative_forecast_constZero_idScaler (init : List Row) (v p f : ℚ) (n : ℕ) :
    iterative_forecast constZeroPredictor idScaler init v p f n
      = Except.ok (List.replicate n 0) := by
  rw [iterative_forecast_of_loop constZeroPredictor idScaler init v p f n _
    (forecastLoop_constZero idScaler v p f n init)]
  norm_num [AffineScaler.inverseRow, idScaler, List.map_replicate]

/-- Witness for C4: requested input 70, AI mode off, a constant-zero
predictor with the identity scaler; the physics engine is updated with
exactly the requested input. -/
theorem ai_off_noninterference_witness :
    ((0 : ℚ) ≤ 70 ∧ (70 : ℚ) ≤ 100)
    ∧ iterative_forecast constZeroPredictor idScaler
        (create_input_sequence idScaler 50 (reset 50 10 540).pressure
          ((70 : ℚ) * 2) (reset 50 10 540).temperature)
        50 (reset 50 10 540).pressure ((70 : ℚ) * 2) FORECAST_STEPS
      = Except.ok (List.replicate FORECAST_STEPS 0)
    ∧ (simulate_boiler (some constZeroPredictor) (some idScaler)
          (reset 50 10 540) 70 false 0).1
      = (update (reset 50 10 540) 70 0).1 := by
  have hf := iterative_forecast_constZero_idScaler
    (create_input_sequence idScaler 50 (reset 50 10 540).pressure
      ((70 : ℚ) * 2) (reset 50 10 540).temperature)
    50 (reset 50 10 540).pressure ((70 : ℚ) * 2) FORECAST_STEPS
  exact ⟨⟨by norm_num, by norm_num⟩, hf,
    ((ai_off_noninterference 70 (by norm_num) (by norm_num)).2
      constZeroPredictor idScaler (reset 50 10 540) 0 _ hf).1⟩

lemma getLastD_replicate_succ {α : Type} (n : ℕ) (a d : α) :
    (List.replicate (n + 1) a).getLastD d = a := by
  rw [List.replicate_succ', List.getLastD_concat]

lemma forecastLoop_identityStub (sc : AffineScaler) (v p f tn : ℚ) :
    ∀ (n : ℕ) (seq : List Row), (seq.getLastD default) 3 = tn →
      forecastLoop identityStubPredictor sc v p f n seq
        = Except.ok (List.replicate n tn) := by
  intro n
  induction n with
  | zero => intro seq _; rfl
  | succ m ih =>
    intro seq h
    have hP : identityStubPredictor seq = Except.ok tn := by
      show Except.ok ((seq.getLastD default) 3) = Except.ok tn
      rw [h]
    have hnext : ((seq.drop 1
        ++ [fun j => if j = 3 then tn
              else sc.transformRow (mkRow v p f 0) j]).getLastD default) 3 = tn := by
      rw [List.getLastD_concat]
      simp
    rw [forecastLoop]
    simp only [hP]
    rw [ih _ hnext, List.replicate_succ]

/-- C5: for every seed `(valve, pressure, flow, target)` and every
invertible per-feature affine normalizer, running the forecast engine
with the identity stub predictor returns exactly `FORECAST_STEPS`
denormalized values, all equal to the seed target. -/
theorem forecast_identity_stub_constant (sc : AffineScaler) (v p f t : ℚ)
    (hsc : ∀ j : Fin 4, sc.scale j ≠ 0) :
    iterative_forecast identityStubPredictor sc
        (create_input_sequence sc v p f t) v p f FORECAST_STEPS
      = Except.ok (List.replicate FORECAST_STEPS t) := by
  have htn : ((create_input_sequence sc v p f t).getLastD default) 3
      = (t - sc.mean 3) / sc.scale 3 := by
    show ((List.replicate SEQUENCE_LENGTH
        (sc.transformRow (mkRow v p f t))).getLastD default) 3 = _
    rw [show SEQUENCE_LENGTH = 59 + 1 from rfl, getLastD_replicate_succ]
    simp [AffineScaler.transformRow, mkRow]
  rw [iterative_forecast_of_loop identityStubPredictor sc _ v p f FORECAST_STEPS _
    (forecastLoop_identityStub sc v p f ((t - sc.mean 3) / sc.scale 3)
      FORECAST_STEPS _ htn), List.map_replicate]
  have hden : sc.inverseRow
      (fun j => if j = 3 then (t - sc.mean 3) / sc.scale 3 else 0) 3 = t := by
    simp only [AffineScaler.inverseRow, eq_self_iff_true, if_true]
    rw [div_mul_cancel₀ _ (hsc 3), sub_add_cancel]
  rw [hden]

/-- Witness for C5: the identity scaler (all scales 1) and seed target
555 produce thirty 555s. -/
theorem forecast_identity_stub_constant_witness :
    (∀ j : Fin 4, idScaler.scale j ≠ 0)
    ∧ iterative_forecast identityStubPredictor idScaler
        (create_input_sequence idScaler 50 10 60 555) 50 10 60 FORECAST_STEPS
      = Except.ok (List.replicate FORECAST_STEPS 555) :=
  ⟨fun j => by norm_num [idScaler],
   forecast_identity_stub_constant idScaler 50 10 60 555
     (fun j => by norm_num [idScaler])⟩

/-- C6: when the model or the scaler is not loaded, a `/simulate` step
fails with the dependency-unavailable error and the boiler state is
returned exactly as it was; and when the forecast phase fails, the step
fails and the state is likewise unchanged — no partial tick is
committed. -/
theorem dependency_unavailable_atomic :
    (∀ (scaler : Option AffineScaler) (s : BoilerState) (user : ℚ)
        (ai : Bool) (dt : ℚ),
      simulate_boiler none scaler s user ai dt
        = (s, Except.error .dependencyUnavailable))
    ∧ (∀ (P : Predictor) (s : BoilerState) (user : ℚ) (ai : Bool) (dt : ℚ),
      simulate_boiler (some P) none s user ai dt
        = (s, Except.error .dependencyUnavailable))
    ∧ ∀ (P : Predictor) (sc : AffineScaler) (s : BoilerState) (user : ℚ)
        (ai : Bool) (dt : ℚ) (msg : String),
        iterative_forecast P sc
            (create_input_sequence sc 50 s.pressure (user * 2) s.temperature)
            50 s.pressure (user * 2) FORECAST_STEPS = Except.error msg →
        simulate_boiler (some P) (some sc) s user ai dt
          = (s, Except.error (.simulationFailed msg)) := by
  refine ⟨fun _ _ _ _ _ => rfl, fun _ _ _ _ _ => rfl, ?_⟩
  intro P sc s user ai dt msg hf
  simp only [simulate_boiler, hf]

/-- A predictor stub whose call always fails (the external model raising
an exception). -/
def failingPredictor : Predictor := fun _ => Except.error "model.predict failed"

/-- Witness for C6: the failing predictor makes the forecast phase fail,
and the `/simulate` step returns the state unchanged with the wrapped
error. -/
theorem dependency_unavailable_atomic_witness :
    iterative_forecast failingPredictor idScaler
        (create_input_sequence idScaler 50 (reset 50 10 540).pressure
          ((80 : ℚ) * 2) (reset 50 10 540).temperature)
        50 (reset 50 10 540).pressure ((80 : ℚ) * 2) FORECAST_STEPS
      = Except.error "model.predict failed"
    ∧ simulate_boiler (some failingPredictor) (some idScaler)
        (reset 50 10 540) 80 true 0
      = (reset 50 10 540, Except.error (.simulationFailed "model.predict failed")) := by
  have hf : iterative_forecast failingPredictor idScaler
      (create_input_sequence idScaler 50 (reset 50 10 540).pressure
        ((80 : ℚ) * 2) (reset 50 10 540).temperature)
      50 (reset 50 10 540).pressure ((80 : ℚ) * 2) FORECAST_STEPS
      = Except.error "model.predict failed" := rfl
  exact ⟨hf, dependency_unavailable_atomic.2.2 failingPredictor idScaler
    (reset 50 10 540) 80 true 0 "model.predict failed" hf⟩

end BoilerBackend

namespace DrumBoilerPhysics

/-- C10: `reset` stores its three arguments verbatim, with no clamping or
validation; in particular `reset(150, -3, 540)` leaves `water_level = 150`
and `pressure = -3`, violating the documented field bounds until the next
tick. -/
theorem reset_stores_verbatim (w p t : ℚ) :
    (reset w p t).water_level = w
    ∧ (reset w p t).pressure = p
    ∧ (reset w p t).temperature = t
    ∧ (reset w p t).fire_intensity = 0
    ∧ (reset 150 (-3) 540).water_level = 150
    ∧ (reset 150 (-3) 540).pressure = -3
    ∧ ¬ (reset 150 (-3) 540).water_level ≤ 100
    ∧ ¬ 0 ≤ (reset 150 (-3) 540).pressure := by
  refine ⟨rfl, rfl, rfl, rfl, rfl, rfl, ?_, ?_⟩ <;> norm_num [reset]

end DrumBoilerPhysics
